import Mathlib

/-!
Shallow embedding of the QLORAX API process (`app/api.py`): the model
lifecycle manager (`ModelManager`) and the training status coordinator
(the module-level `training_status` record together with the `/train`
endpoint and its background task `run_training`).

External ML libraries (transformers, peft, torch) and the filesystem are
abstracted as oracles gathered in environment records; the repository's
own control flow is translated faithfully from the Python source.
-/

namespace QLORAX

/-- FastAPI `HTTPException`: a status code and a detail message. -/
structure HTTPException where
  status_code : Nat
  detail : String
deriving Repr, DecidableEq

/-- Python `str(e)` for a (fastapi/starlette) `HTTPException`:
`f"\x7bself.status_code\x7d: \x7bself.detail\x7d"`. -/
def HTTPException.str (e : HTTPException) : String :=
  toString e.status_code ++ ": " ++ e.detail

/-! ## Training status coordinator (`training_status`, `/train`, `run_training`) -/

/-- Pydantic `TrainingRequest` (api.py lines 83-86), with its field defaults. -/
structure TrainingRequest where
  config_path : Option String := some "configs/production-config.yaml"
  dataset_path : Option String := none
  output_dir : Option String := some "outputs/production_training"
deriving Repr, DecidableEq

/-- The module-level `training_status` dict: a status string and a message. -/
structure TrainingStatusRec where
  status : String
  message : String
deriving Repr, DecidableEq

/-- `training_status = \x7b"status": "idle", "message": "No training in progress"\x7d`
(api.py line 61). -/
def idleStatusRec : TrainingStatusRec :=
  ⟨"idle", "No training in progress"⟩

/-- The record written by `run_training` when the background task begins. -/
def trainingStartedRec : TrainingStatusRec :=
  ⟨"training", "Training started"⟩

/-- The record written by `run_training` when the training call returns
(`none` = no exception) or raises (`some msg` = exception message). -/
def finishRec : Option String → TrainingStatusRec
  | none => ⟨"completed", "Training completed successfully"⟩
  | some e => ⟨"error", "Training failed: " ++ e⟩

/-- `request.config_path or "configs/production-config.yaml"` (api.py line 302):
Python `or` treats both `None` and the empty string as falsy. -/
def configUsed (req : TrainingRequest) : String :=
  match req.config_path with
  | some c => if c = "" then "configs/production-config.yaml" else c
  | none => "configs/production-config.yaml"

/-- The background task `run_training` (api.py lines 292-309): sets status to
`training`, invokes the external training entry point on the configuration
path, then records completion or error. `trainMain` abstracts
`scripts.train_production.main` (and its import): `none` means it returned
normally, `some msg` that it raised with message `msg`. Returns the two
records written, in order. -/
def run_training (trainMain : String → Option String) (req : TrainingRequest) :
    TrainingStatusRec × TrainingStatusRec :=
  (trainingStartedRec, finishRec (trainMain (configUsed req)))

/-- The `/train` endpoint `start_training` (api.py lines 284-314): rejects
with 409 exactly when the current status is `"training"`; otherwise queues
the background task and overwrites the status record with `starting`.
Returns the HTTP outcome, the status record after the request, and the
background-task queue after the request. -/
def start_training (st : TrainingStatusRec) (queue : List TrainingRequest)
    (req : TrainingRequest) :
    Except HTTPException String × TrainingStatusRec × List TrainingRequest :=
  if st.status = "training" then
    (.error ⟨409, "Training already in progress"⟩, st, queue)
  else
    (.ok "Training started in background",
     ⟨"starting", "Training task queued"⟩, queue ++ [req])

/-- Coordinator state: the shared status record, the queued-but-not-begun
background jobs, and the begun-but-not-finished jobs. -/
structure CoordState where
  statusRec : TrainingStatusRec
  queued : List TrainingRequest
  running : List TrainingRequest
deriving Repr, DecidableEq

/-- Process start: status `idle`, no background jobs. -/
def initCoordState : CoordState :=
  ⟨idleStatusRec, [], []⟩

/-- Events observable on the coordinator: a `/train` request arrives; a
queued background task begins (its first write, `training`); a begun task
finishes (`none` = the training call returned, `some msg` = it raised). -/
inductive TrainEvent where
  | startReq (req : TrainingRequest)
  | bgBegin
  | bgFinish (result : Option String)
deriving Repr, DecidableEq

/-- One step of the coordinator. `startReq` runs the endpoint (a rejected
request leaves the record and queue unchanged); `bgBegin`/`bgFinish` are the
two writes of `run_training`, which FastAPI runs after the response is sent,
one task per accepted request. `none` marks an event that cannot occur
(no queued or running job). -/
def step (s : CoordState) (e : TrainEvent) : Option CoordState :=
  match e with
  | .startReq req =>
    let r := start_training s.statusRec s.queued req
    some ⟨r.2.1, r.2.2, s.running⟩
  | .bgBegin =>
    match s.queued with
    | [] => none
    | req :: rest => some ⟨trainingStartedRec, rest, req :: s.running⟩
  | .bgFinish result =>
    match s.running with
    | [] => none
    | _ :: rest => some ⟨finishRec result, s.queued, rest⟩

/-- Coordinator states reachable from process start. -/
inductive Reachable : CoordState → Prop where
  | init : Reachable initCoordState
  | next {s : CoordState} {e : TrainEvent} {t : CoordState} :
      Reachable s → step s e = some t → Reachable t

/-- Run a sequence of events from process start. -/
def runEvents (events : List TrainEvent) : Option CoordState :=
  events.foldlM step initCoordState

/-- The status string after a sequence of events from process start. -/
def statusAfter (events : List TrainEvent) : Option String :=
  (runEvents events).map (fun s => s.statusRec.status)

/-- The five status values the spec allows. -/
def statusValues : List String :=
  ["idle", "starting", "training", "completed", "error"]

/-- Modelled from the spec: the transition relation of the claimed state
machine `idle → starting → training → \x7bcompleted | error\x7d`, plus the
explicitly permitted restarts from `completed` and `error` back to
`starting`. Written from the spec's words, for comparison with the
behaviour of `step`. -/
def specClaimedEdge : String → String → Bool
  | "idle", "starting" => true
  | "starting", "training" => true
  | "training", "completed" => true
  | "training", "error" => true
  | "completed", "starting" => true
  | "error", "starting" => true
  | _, _ => false

/-- A concrete event sequence: two `/train` requests in quick succession
(the second arrives while the status is still `starting`, which the guard
accepts), then the first job runs to completion, then the second begins. -/
def raceTrace : List TrainEvent :=
  [.startReq {}, .startReq {}, .bgBegin, .bgFinish none, .bgBegin]

/-! ## Model lifecycle manager (`ModelManager` and its endpoints) -/

/-- A tokenizer, as far as the repository observes it: where it was loaded
from, its padding token (possibly absent), and its end-of-sequence token. -/
structure Tokenizer where
  source : String
  pad_token : Option String
  eos_token : String
deriving Repr, DecidableEq

/-- A loaded model artifact: either an adapter composed onto a base model
(`PeftModel.from_pretrained(base_model, model_path)`) or a standalone model
(`AutoModelForCausalLM.from_pretrained(model_path)`). -/
inductive Model where
  | peft (base : String) (adapterPath : String)
  | standalone (path : String)
deriving Repr, DecidableEq

/-- Python `type(model).__name__` for the two load branches. The standalone
class name is determined by the external library; it is abstracted by the
entry-point name used to load it. -/
def Model.typeName : Model → String
  | .peft _ _ => "PeftModel"
  | .standalone _ => "AutoModelForCausalLM"

/-- The mutable state of `ModelManager` (api.py lines 95-100). -/
structure ModelManager where
  model : Option Model
  tokenizer : Option Tokenizer
  model_name : Option String
  is_loaded : Bool
deriving Repr, DecidableEq

/-- `ModelManager.__init__`: everything absent, `is_loaded = False`. -/
def ModelManager.new : ModelManager :=
  ⟨none, none, none, false⟩

/-- The filesystem and the external ML libraries, abstracted as oracles.
`loadTokenizer` is `AutoTokenizer.from_pretrained` (`none` = it raised);
`loadCausalLM` is whether `AutoModelForCausalLM.from_pretrained` succeeds on
an identifier; `loadPeft` is whether `PeftModel.from_pretrained` succeeds on
a base model and adapter path. -/
structure Env where
  pathExists : String → Bool
  listdir : String → List String
  loadTokenizer : String → Option Tokenizer
  loadCausalLM : String → Bool
  loadPeft : String → String → Bool

/-- Whether one character list leads another. -/
def leadsChars : List Char → List Char → Bool
  | [], _ => true
  | _ :: _, [] => false
  | a :: as, b :: bs => a = b && leadsChars as bs

/-- Python `s.startswith(pre)`, over the characters of the strings. -/
def pyStartsWith (s pre : String) : Bool :=
  leadsChars pre.data s.data

/-- The ordered candidate list probed when no path is given
(api.py lines 112-116). -/
def possiblePaths : List String :=
  ["outputs/production_training/final_model",
   "models/fine_tuned_model",
   "microsoft/DialoGPT-medium"]

/-- Path determination in `load_model` (api.py lines 110-121): an explicit
argument is used as given; otherwise the first candidate that exists
locally or starts with `"microsoft/"` is selected. `none` means the Python
variable stays `None`. -/
def resolveModelPath (env : Env) (model_path : Option String) : Option String :=
  match model_path with
  | some p => some p
  | none => possiblePaths.find? (fun p => env.pathExists p || pyStartsWith p "microsoft/")

/-- `if self.tokenizer.pad_token is None: self.tokenizer.pad_token =
self.tokenizer.eos_token` (api.py lines 127-128). -/
def fixPadToken (t : Tokenizer) : Tokenizer :=
  if t.pad_token = none then { t with pad_token := some t.eos_token } else t

/-- The adapter-configuration marker test (api.py line 131):
`os.path.exists(model_path) and "adapter_config.json" in os.listdir(model_path)`. -/
def hasAdapterMarker (env : Env) (mp : String) : Bool :=
  env.pathExists mp && (env.listdir mp).contains "adapter_config.json"

/-- Result of a `load_model` call: the manager state after the call and the
exception it re-raised, if any (`none` = returned normally). -/
structure LoadResult where
  manager : ModelManager
  error : Option String
deriving Repr, DecidableEq

/-- `ModelManager.load_model` (api.py lines 102-154), with the Python
assignment order kept: the tokenizer is assigned to `self.tokenizer` before
the model branch runs, so a model-load failure leaves the new tokenizer
in place; the `except` clause sets `is_loaded = False` and re-raises. -/
def load_model (env : Env) (m : ModelManager) (model_path : Option String) :
    LoadResult :=
  match resolveModelPath env model_path with
  | none =>
    { manager := { m with is_loaded := false },
      error := some "tokenizer load failed: None" }
  | some mp =>
    match env.loadTokenizer mp with
    | none =>
      { manager := { m with is_loaded := false },
        error := some ("tokenizer load failed: " ++ mp) }
    | some tok0 =>
      let m1 := { m with tokenizer := some (fixPadToken tok0) }
      if hasAdapterMarker env mp then
        if env.loadCausalLM "microsoft/DialoGPT-medium" then
          if env.loadPeft "microsoft/DialoGPT-medium" mp then
            { manager := { m1 with
                model := some (Model.peft "microsoft/DialoGPT-medium" mp),
                model_name := some mp, is_loaded := true },
              error := none }
          else
            { manager := { m1 with is_loaded := false },
              error := some ("peft load failed: " ++ mp) }
        else
          { manager := { m1 with is_loaded := false },
            error := some "base model load failed: microsoft/DialoGPT-medium" }
      else
        if env.loadCausalLM mp then
          { manager := { m1 with
              model := some (Model.standalone mp),
              model_name := some mp, is_loaded := true },
            error := none }
        else
          { manager := { m1 with is_loaded := false },
            error := some ("model load failed: " ++ mp) }

/-- The model the source builds for a selected path, by the marker branch
(api.py lines 131-145). -/
def loadedModelFor (env : Env) (mp : String) : Model :=
  if hasAdapterMarker env mp then Model.peft "microsoft/DialoGPT-medium" mp
  else Model.standalone mp

/-- `get_model_manager` (api.py lines 193-201) at first use: constructs the
manager and attempts a load, swallowing any exception (the resulting,
possibly partially mutated, manager state is kept either way). -/
def get_model_manager (env : Env) (current : Option ModelManager) : ModelManager :=
  match current with
  | some m => m
  | none => (load_model env ModelManager.new none).manager

/-- The `/model_status` response (api.py lines 276-282). -/
structure ModelStatusResponse where
  is_loaded : Bool
  model_name : Option String
  model_type : Option String
deriving Repr, DecidableEq

/-- `model_status` endpoint (api.py lines 275-282). -/
def model_status (m : ModelManager) : ModelStatusResponse :=
  { is_loaded := m.is_loaded,
    model_name := m.model_name,
    model_type := m.model.map Model.typeName }

/-! ## Generation (`generate_response`, `/chat`) -/

/-- The tokenization/generation/decoding machinery of the external
libraries, abstracted as oracles. `encode` is `tokenizer.encode` on the
prompt text; `generate` is `model.generate` on the input tokens with the
computed length bound and the sampling parameters; `decode` is
`tokenizer.decode(..., skip_special_tokens=True)`. `none` = the call
raised. -/
structure GenEnv where
  eos_token : String
  encode : String → Option (List Nat)
  generate : List Nat → Nat → Rat → Rat → Option (List Nat)
  decode : List Nat → Option String

/-- Python string slicing `s[n:]`: drop the first `n` characters. -/
def pyDropChars (n : Nat) (s : String) : String :=
  ⟨s.data.drop n⟩

/-- Python `str.strip()`: remove leading and trailing whitespace. -/
def pyStrip (s : String) : String :=
  ⟨((s.data.dropWhile Char.isWhitespace).reverse.dropWhile Char.isWhitespace).reverse⟩

/-- The decoded text the pipeline produces for a prompt: encode the prompt
with the end-of-sequence token appended, generate with the length bound
`inputs.length + max_length`, decode with special tokens stripped. -/
def decodedOutput (g : GenEnv) (message : String) (max_length : Nat)
    (temperature top_p : Rat) : Option String := do
  let inputs ← g.encode (message ++ g.eos_token)
  let outputs ← g.generate inputs (inputs.length + max_length) temperature top_p
  g.decode outputs

/-- `ModelManager.generate_response` (api.py lines 156-190): 503 when not
loaded; otherwise runs the pipeline and returns
`response[len(message):].strip()`; any pipeline failure becomes a 500. -/
def generate_response (g : GenEnv) (m : ModelManager) (message : String)
    (max_length : Nat) (temperature top_p : Rat) :
    Except HTTPException String :=
  if !m.is_loaded then
    .error ⟨503, "Model not loaded"⟩
  else
    match g.encode (message ++ g.eos_token) with
    | none => .error ⟨500, "Generation error: encode failed"⟩
    | some inputs =>
      match g.generate inputs (inputs.length + max_length) temperature top_p with
      | none => .error ⟨500, "Generation error: generate failed"⟩
      | some outputs =>
        match g.decode outputs with
        | none => .error ⟨500, "Generation error: decode failed"⟩
        | some response => .ok (pyStrip (pyDropChars message.length response))

/-- Pydantic `ChatRequest` (api.py lines 72-76) with its field defaults. -/
structure ChatRequest where
  message : String
  max_length : Nat := 100
  temperature : Rat := 7 / 10
  top_p : Rat := 9 / 10
deriving Repr, DecidableEq

/-- `ChatResponse` (api.py lines 78-81); `processing_time` is wall-clock
time, outside the embedding. -/
structure ChatResponse where
  response : String
  model_name : String
deriving Repr, DecidableEq

/-- `manager.model_name or "unknown"` (api.py line 257): Python `or` treats
both `None` and the empty string as falsy. -/
def modelNameOrUnknown (m : ModelManager) : String :=
  match m.model_name with
  | some n => if n = "" then "unknown" else n
  | none => "unknown"

/-- The `/chat` endpoint (api.py lines 239-262). Its `except Exception`
clause catches every exception raised inside the handler — including the
`HTTPException` instances raised by `generate_response`, since
`HTTPException` subclasses `Exception` — and re-raises
`HTTPException(status_code=500, detail=str(e))`. -/
def chat (g : GenEnv) (m : ModelManager) (req : ChatRequest) :
    Except HTTPException ChatResponse :=
  match generate_response g m req.message req.max_length req.temperature req.top_p with
  | .ok response => .ok { response := response, model_name := modelNameOrUnknown m }
  | .error e => .error ⟨500, e.str⟩

/-! ## Concrete fixtures, used to evaluate the definitions at specific inputs -/

/-- A manager that has already completed a successful load. -/
def mgrLoaded : ModelManager :=
  ⟨some (Model.standalone "old/model"), some ⟨"old/model", some "PAD", "EOS"⟩,
   some "old/model", true⟩

/-- An environment where every tokenizer load succeeds but every model load
fails. -/
def envFail : Env :=
  ⟨fun _ => false, fun _ => [],
   fun p => some ⟨p, some "PAD", "EOS"⟩,
   fun _ => false, fun _ _ => false⟩

/-- An environment with an adapter checkpoint at `outputs/run1` (its
directory listing carries the marker file) and a plain model directory at
`models/plain`; all library loads succeed. -/
def envAdapter : Env :=
  ⟨fun p => p = "outputs/run1" || p = "models/plain",
   fun p => if p = "outputs/run1" then ["adapter_config.json"] else [],
   fun p => some ⟨p, none, "EOS"⟩,
   fun _ => true, fun _ _ => true⟩

/-- A generation environment where every pipeline call fails (irrelevant
for requests rejected before the pipeline runs). -/
def emptyGenEnv : GenEnv :=
  ⟨"", fun _ => none, fun _ _ _ _ => none, fun _ => none⟩

/-- A generation environment whose pipeline succeeds and decodes to
`"Hi there!"`. -/
def genEnvOk : GenEnv :=
  ⟨"<eos>", fun _ => some [1], fun _ _ _ _ => some [1, 2], fun _ => some "Hi there!"⟩

/-! ## Helper lemmas -/

/-- Case analysis of `load_model`: either it returns normally, having set
`is_loaded`, the identifier, the model and the tokenizer from this load,
or it re-raises, having set `is_loaded = False` and left the model
reference and the identifier untouched. -/
theorem load_model_cases (env : Env) (m : ModelManager) (p : Option String) :
    ((load_model env m p).error = none ∧
     (load_model env m p).manager.is_loaded = true ∧
     (load_model env m p).manager.model_name = resolveModelPath env p ∧
     (load_model env m p).manager.model =
       (resolveModelPath env p).map (loadedModelFor env) ∧
     (load_model env m p).manager.tokenizer =
       (resolveModelPath env p).bind
         (fun mp => (env.loadTokenizer mp).map fixPadToken)) ∨
    ((load_model env m p).error.isSome = true ∧
     (load_model env m p).manager.is_loaded = false ∧
     (load_model env m p).manager.model = m.model ∧
     (load_model env m p).manager.model_name = m.model_name) := by
  cases hr : resolveModelPath env p with
  | none =>
    right
    simp [load_model, hr]
  | some mp =>
    cases ht : env.loadTokenizer mp with
    | none =>
      right
      simp [load_model, hr, ht]
    | some tok =>
      cases ha : hasAdapterMarker env mp with
      | false =>
        cases hc : env.loadCausalLM mp with
        | false =>
          right
          simp [load_model, hr, ht, ha, hc]
        | true =>
          left
          simp [load_model, loadedModelFor, hr, ht, ha, hc]
      | true =>
        cases hb : env.loadCausalLM "microsoft/DialoGPT-medium" with
        | false =>
          right
          simp [load_model, hr, ht, ha, hb]
        | true =>
          cases hp : env.loadPeft "microsoft/DialoGPT-medium" mp with
          | false =>
            right
            simp [load_model, hr, ht, ha, hb, hp]
          | true =>
            left
            simp [load_model, loadedModelFor, hr, ht, ha, hb, hp]

/-! ## Claims -/

/-- C5: for every load call that fails for any reason — reported through
the re-raised exception in the `error` field — the manager's `is_loaded`
flag is false after the call. -/
theorem C5_failed_load_not_loaded (env : Env) (m : ModelManager)
    (p : Option String)
    (h : (load_model env m p).error.isSome = true) :
    (load_model env m p).manager.is_loaded = false := by
  rcases load_model_cases env m p with ⟨he, _⟩ | ⟨_, hl, _, _⟩
  · rw [he] at h
    simp at h
  · exact hl

/-- C5 witness: a concrete failing load (every model load fails in
`envFail`) leaves `is_loaded = false` even on a previously loaded manager. -/
theorem C5_failed_load_not_loaded_witness :
    (load_model envFail mgrLoaded (some "outputs/other")).manager.is_loaded = false :=
  C5_failed_load_not_loaded envFail mgrLoaded (some "outputs/other") (by decide)

/-- C7: the manager state before any load attempt is the `__init__` state,
and a `model_status` query on it reports `is_loaded: false`. -/
theorem C7_model_status_before_load :
    (model_status ModelManager.new).is_loaded = false ∧
    model_status ModelManager.new = ⟨false, none, none⟩ := by
  constructor <;> rfl

/-- C10: when `load` is called with the identifier omitted, the probe over
the ordered candidate list always selects some candidate — the hard-coded
fallback satisfies the `startswith("microsoft/")` test unconditionally —
so the selected identifier is never absent. -/
theorem C10_probe_always_selects (env : Env) :
    (resolveModelPath env none).isSome = true ∧
    (resolveModelPath env none = some "outputs/production_training/final_model" ∨
     resolveModelPath env none = some "models/fine_tuned_model" ∨
     resolveModelPath env none = some "microsoft/DialoGPT-medium") := by
  cases he1 : env.pathExists "outputs/production_training/final_model" <;>
  cases he2 : env.pathExists "models/fine_tuned_model" <;>
    simp [resolveModelPath, possiblePaths, List.find?, he1, he2, pyStartsWith, leadsChars]

/-- C3 counterexample: a load call that fails after the tokenizer was
loaded (in `envFail` every tokenizer load succeeds and every model load
fails) re-raises, yet has replaced the manager's tokenizer reference —
refuting "on failure none of them is mutated". -/
theorem C3_failed_load_mutates_tokenizer :
    (load_model envFail mgrLoaded (some "new/path")).error.isSome = true ∧
    (load_model envFail mgrLoaded (some "new/path")).manager.tokenizer ≠
      mgrLoaded.tokenizer := by
  decide

/-- C3 (amended): on success all three state fields are replaced together
with the artifacts of this load; on failure the model reference and the
identifier are unchanged and `is_loaded` is false — but the tokenizer
reference may already have been replaced, because the tokenizer is
assigned before the model branch runs. -/
theorem C3_load_replacement_amended (env : Env) (m : ModelManager)
    (p : Option String) :
    ((load_model env m p).error = none →
      (load_model env m p).manager.is_loaded = true ∧
      (load_model env m p).manager.model_name = resolveModelPath env p ∧
      (load_model env m p).manager.model =
        (resolveModelPath env p).map (loadedModelFor env) ∧
      (load_model env m p).manager.tokenizer =
        (resolveModelPath env p).bind
          (fun mp => (env.loadTokenizer mp).map fixPadToken)) ∧
    ((load_model env m p).error.isSome = true →
      (load_model env m p).manager.model = m.model ∧
      (load_model env m p).manager.model_name = m.model_name ∧
      (load_model env m p).manager.is_loaded = false) := by
  rcases load_model_cases env m p with ⟨he, h1, h2, h3, h4⟩ | ⟨he, h1, h2, h3⟩
  · refine ⟨fun _ => ⟨h1, h2, h3, h4⟩, fun hs => ?_⟩
    rw [he] at hs
    simp at hs
  · refine ⟨fun hn => ?_, fun _ => ⟨h2, h3, h1⟩⟩
    rw [hn] at he
    simp at he

/-- C3 amended witness: the success clause at a concrete successful adapter
load, and the failure clause at a concrete failed load. -/
theorem C3_load_replacement_amended_witness :
    ((load_model envAdapter mgrLoaded (some "outputs/run1")).manager.is_loaded = true ∧
     (load_model envAdapter mgrLoaded (some "outputs/run1")).manager.model_name =
       resolveModelPath envAdapter (some "outputs/run1") ∧
     (load_model envAdapter mgrLoaded (some "outputs/run1")).manager.model =
       (resolveModelPath envAdapter (some "outputs/run1")).map (loadedModelFor envAdapter) ∧
     (load_model envAdapter mgrLoaded (some "outputs/run1")).manager.tokenizer =
       (resolveModelPath envAdapter (some "outputs/run1")).bind
         (fun mp => (envAdapter.loadTokenizer mp).map fixPadToken)) ∧
    ((load_model envFail mgrLoaded (some "other/path")).manager.model = mgrLoaded.model ∧
     (load_model envFail mgrLoaded (some "other/path")).manager.model_name =
       mgrLoaded.model_name ∧
     (load_model envFail mgrLoaded (some "other/path")).manager.is_loaded = false) :=
  ⟨(C3_load_replacement_amended envAdapter mgrLoaded (some "outputs/run1")).1 (by decide),
   (C3_load_replacement_amended envFail mgrLoaded (some "other/path")).2 (by decide)⟩

/-- C4: loading a directory containing the adapter-configuration marker
composes the fixed base model with the adapter and `model_status` then
reports `is_loaded: true` with `model_name` the adapter directory path;
loading a path without the marker loads that identifier directly as a
standalone model. -/
theorem C4_adapter_marker_composition (env : Env) (m m2 : ModelManager)
    (mpA mpS : String) (tokA tokS : Tokenizer)
    (htokA : env.loadTokenizer mpA = some tokA)
    (hmarkA : hasAdapterMarker env mpA = true)
    (hbase : env.loadCausalLM "microsoft/DialoGPT-medium" = true)
    (hpeft : env.loadPeft "microsoft/DialoGPT-medium" mpA = true)
    (htokS : env.loadTokenizer mpS = some tokS)
    (hmarkS : hasAdapterMarker env mpS = false)
    (hstand : env.loadCausalLM mpS = true) :
    ((load_model env m (some mpA)).error = none ∧
     (load_model env m (some mpA)).manager.model =
       some (Model.peft "microsoft/DialoGPT-medium" mpA) ∧
     model_status (load_model env m (some mpA)).manager =
       ⟨true, some mpA, some "PeftModel"⟩) ∧
    ((load_model env m2 (some mpS)).error = none ∧
     (load_model env m2 (some mpS)).manager.model = some (Model.standalone mpS) ∧
     model_status (load_model env m2 (some mpS)).manager =
       ⟨true, some mpS, some "AutoModelForCausalLM"⟩) := by
  constructor
  · simp [load_model, resolveModelPath, htokA, hmarkA, hbase, hpeft,
          model_status, Model.typeName]
  · simp [load_model, resolveModelPath, htokS, hmarkS, hstand,
          model_status, Model.typeName]

/-- C4 witness: in `envAdapter`, loading the marker directory
`outputs/run1` composes base + adapter and reports its path; loading
`models/plain` yields a standalone model. -/
theorem C4_adapter_marker_composition_witness :
    (load_model envAdapter ModelManager.new (some "outputs/run1")).manager.model =
      some (Model.peft "microsoft/DialoGPT-medium" "outputs/run1") ∧
    model_status (load_model envAdapter ModelManager.new (some "outputs/run1")).manager =
      ⟨true, some "outputs/run1", some "PeftModel"⟩ ∧
    model_status (load_model envAdapter ModelManager.new (some "models/plain")).manager =
      ⟨true, some "models/plain", some "AutoModelForCausalLM"⟩ := by
  have h := C4_adapter_marker_composition envAdapter ModelManager.new ModelManager.new
    "outputs/run1" "models/plain" ⟨"outputs/run1", none, "EOS"⟩ ⟨"models/plain", none, "EOS"⟩
    (by decide) (by decide) (by decide) (by decide) (by decide) (by decide) (by decide)
  exact ⟨h.1.2.1, h.1.2.2, h.2.2.2⟩

/-- C1 counterexample: a `/train` request arriving while the status record
holds `starting` is accepted (the guard only compares against
`"training"`), overwrites the record's message and queues a second job —
refuting "rejected while `starting` or `training`". -/
theorem C1_start_during_starting_accepted :
    (start_training ⟨"starting", "Training task queued"⟩ [] {}).1 =
      .ok "Training started in background" ∧
    (start_training ⟨"starting", "Training task queued"⟩ [] {}).2.2 = [{}] :=
  ⟨rfl, rfl⟩

/-- C1 (amended): a `/train` request arriving while the status record's
status is `training` is rejected with a 409 conflict and alters neither the
status record nor the task queue; a request arriving while the status is
`starting` is accepted. -/
theorem C1_training_state_rejects_409 (st : TrainingStatusRec)
    (q : List TrainingRequest) (req : TrainingRequest)
    (h : st.status = "training") :
    start_training st q req =
      (.error ⟨409, "Training already in progress"⟩, st, q) := by
  simp [start_training, h]

/-- C1 amended witness: the rejection at a concrete in-flight record. -/
theorem C1_training_state_rejects_409_witness :
    start_training ⟨"training", "Training started"⟩ [] {} =
      (.error ⟨409, "Training already in progress"⟩,
       ⟨"training", "Training started"⟩, []) :=
  C1_training_state_rejects_409 ⟨"training", "Training started"⟩ [] {} rfl

/-- C9: two `/train` requests that differ only in `dataset_path` and
`output_dir` produce the same endpoint outcome and status record, the same
configuration path handed to the external training entry point, and the
same background-job behaviour. -/
theorem C9_dataset_and_output_dir_unused (r1 r2 : TrainingRequest)
    (tm : String → Option String) (st : TrainingStatusRec)
    (q : List TrainingRequest)
    (h : r1.config_path = r2.config_path) :
    configUsed r1 = configUsed r2 ∧
    run_training tm r1 = run_training tm r2 ∧
    (start_training st q r1).1 = (start_training st q r2).1 ∧
    (start_training st q r1).2.1 = (start_training st q r2).2.1 := by
  have hc : configUsed r1 = configUsed r2 := by
    unfold configUsed
    rw [h]
  refine ⟨hc, ?_, ?_, ?_⟩
  · unfold run_training
    rw [hc]
  · unfold start_training
    by_cases hst : st.status = "training" <;> simp [hst]
  · unfold start_training
    by_cases hst : st.status = "training" <;> simp [hst]

/-- C9 witness: two concrete requests differing in `dataset_path` and
`output_dir` only. -/
theorem C9_dataset_and_output_dir_unused_witness :
    configUsed { dataset_path := some "data/a.jsonl", output_dir := some "outputs/a" } =
      configUsed { dataset_path := none, output_dir := some "outputs/b" } ∧
    run_training (fun _ => none)
        { dataset_path := some "data/a.jsonl", output_dir := some "outputs/a" } =
      run_training (fun _ => none)
        { dataset_path := none, output_dir := some "outputs/b" } ∧
    (start_training idleStatusRec []
        { dataset_path := some "data/a.jsonl", output_dir := some "outputs/a" }).1 =
      (start_training idleStatusRec []
        { dataset_path := none, output_dir := some "outputs/b" }).1 ∧
    (start_training idleStatusRec []
        { dataset_path := some "data/a.jsonl", output_dir := some "outputs/a" }).2.1 =
      (start_training idleStatusRec []
        { dataset_path := none, output_dir := some "outputs/b" }).2.1 :=
  C9_dataset_and_output_dir_unused
    { dataset_path := some "data/a.jsonl", output_dir := some "outputs/a" }
    { dataset_path := none, output_dir := some "outputs/b" }
    (fun _ => none) idleStatusRec [] rfl

/-- Any step from a state whose status is among the five spec values leads
to a state whose status is among them. -/
theorem step_preserves_statusValues {s t : CoordState} {e : TrainEvent}
    (hmem : s.statusRec.status ∈ statusValues) (h : step s e = some t) :
    t.statusRec.status ∈ statusValues := by
  cases e with
  | startReq req =>
    by_cases hst : s.statusRec.status = "training"
    · simp [step, start_training, hst] at h
      subst h
      exact hmem
    · simp [step, start_training, hst] at h
      subst h
      show "starting" ∈ statusValues
      decide
  | bgBegin =>
    cases hq : s.queued with
    | nil => simp [step, hq] at h
    | cons a l =>
      simp [step, hq] at h
      subst h
      show "training" ∈ statusValues
      decide
  | bgFinish result =>
    cases hrn : s.running with
    | nil => simp [step, hrn] at h
    | cons a l =>
      simp [step, hrn] at h
      subst h
      cases result with
      | none =>
        show "completed" ∈ statusValues
        decide
      | some msg =>
        show "error" ∈ statusValues
        decide

/-- No step ever writes `idle` into the status record. -/
theorem step_never_idle {s t : CoordState} {e : TrainEvent}
    (h : step s e = some t) : t.statusRec.status ≠ "idle" := by
  cases e with
  | startReq req =>
    by_cases hst : s.statusRec.status = "training"
    · simp [step, start_training, hst] at h
      subst h
      rw [hst]
      decide
    · simp [step, start_training, hst] at h
      subst h
      show "starting" ≠ "idle"
      decide
  | bgBegin =>
    cases hq : s.queued with
    | nil => simp [step, hq] at h
    | cons a l =>
      simp [step, hq] at h
      subst h
      show "training" ≠ "idle"
      decide
  | bgFinish result =>
    cases hrn : s.running with
    | nil => simp [step, hrn] at h
    | cons a l =>
      simp [step, hrn] at h
      subst h
      cases result with
      | none =>
        show "completed" ≠ "idle"
        decide
      | some msg =>
        show "error" ≠ "idle"
        decide

/-- C6 counterexample: after two `/train` requests in quick succession —
the second accepted while the status is still `starting` — the first job's
completion is followed by the second job's begin, realizing the status
transition `completed → training` with no intervening start request; that
transition is outside the spec's claimed state machine. -/
theorem C6_second_start_breaks_state_machine :
    statusAfter (raceTrace.take 4) = some "completed" ∧
    statusAfter raceTrace = some "training" ∧
    specClaimedEdge "completed" "training" = false ∧
    raceTrace[4]? = some TrainEvent.bgBegin := by
  decide

/-- C6 (amended): the status field only ever holds one of the five values;
no step ever returns it to `idle`; and a start call from `completed` or
`error` is accepted and restarts the cycle at `starting`. However, a start
call while the status is `starting` is also accepted (the guard only
rejects `training`), so a second queued job can drive transitions outside
the claimed machine, such as `completed → training`. -/
theorem C6_status_machine_amended :
    (∀ s, Reachable s → s.statusRec.status ∈ statusValues) ∧
    (∀ (s t : CoordState) (e : TrainEvent),
      step s e = some t → t.statusRec.status ≠ "idle") ∧
    (∀ (s : CoordState) (req : TrainingRequest),
      s.statusRec.status = "completed" ∨ s.statusRec.status = "error" →
      step s (.startReq req) =
        some ⟨⟨"starting", "Training task queued"⟩, s.queued ++ [req], s.running⟩ ∧
      (start_training s.statusRec s.queued req).1 =
        .ok "Training started in background") := by
  refine ⟨?_, ?_, ?_⟩
  · intro s hs
    induction hs with
    | init => decide
    | next hr hstep ih => exact step_preserves_statusValues ih hstep
  · intro s t e h
    exact step_never_idle h
  · intro s req hco
    have hne : s.statusRec.status ≠ "training" := by
      rcases hco with h | h <;> rw [h] <;> decide
    constructor
    · simp [step, start_training, hne]
    · simp [start_training, hne]

/-- C6 amended witness: the invariant at the start state, and the accepted
restart at a concrete completed state. -/
theorem C6_status_machine_amended_witness :
    initCoordState.statusRec.status ∈ statusValues ∧
    step ⟨finishRec none, [], []⟩ (.startReq {}) =
      some ⟨⟨"starting", "Training task queued"⟩, [{}], []⟩ :=
  ⟨C6_status_machine_amended.1 initCoordState Reachable.init,
   (C6_status_machine_amended.2.2 ⟨finishRec none, [], []⟩ {} (Or.inl rfl)).1⟩

/-- C2: `generate_response` does raise the intended 503 when no model is
loaded, but the `chat` handler's blanket `except Exception` catches that
`HTTPException` and re-raises it as a 500 — so the client receives HTTP
500 (detail `"503: Model not loaded"`), not the service-unavailable 503
the claim and the inner raise intend. -/
theorem C2_unloaded_chat_returns_500_not_503 :
    generate_response emptyGenEnv ModelManager.new "Hello" 100 0 0 =
      .error ⟨503, "Model not loaded"⟩ ∧
    chat emptyGenEnv ModelManager.new { message := "Hello" } =
      .error ⟨500, "503: Model not loaded"⟩ :=
  ⟨rfl, rfl⟩

/-- C8: every successful generate call returns exactly the decoded pipeline
output with the prefix of the original prompt's length removed and
surrounding whitespace stripped. -/
theorem C8_generate_returns_trimmed_suffix (g : GenEnv) (m : ModelManager)
    (message : String) (max_length : Nat) (temperature top_p : Rat) (s : String)
    (h : generate_response g m message max_length temperature top_p = .ok s) :
    (decodedOutput g message max_length temperature top_p).map
      (fun d => pyStrip (pyDropChars message.length d)) = some s := by
  unfold generate_response at h
  split at h
  · exact Except.noConfusion h
  · split at h
    · exact Except.noConfusion h
    · next inputs he =>
      split at h
      · exact Except.noConfusion h
      · next outputs hg =>
        split at h
        · exact Except.noConfusion h
        · next d hd =>
          injection h with h2
          simp [decodedOutput, he, hg, hd, Option.bind, h2]

/-- C8 witness: a concrete successful call whose decoded output is
`"Hi there!"` for the prompt `"Hi"` returns `"there!"`. -/
theorem C8_generate_returns_trimmed_suffix_witness :
    (decodedOutput genEnvOk "Hi" 10 0 0).map
      (fun d => pyStrip (pyDropChars "Hi".length d)) = some "there!" :=
  C8_generate_returns_trimmed_suffix genEnvOk mgrLoaded "Hi" 10 0 0 "there!" rfl

end QLORAX
